import Mathlib

/-!
Shallow embedding of the Horde3D pipeline-resource engine
(src/Horde3D/Source/Horde3DEngine/egPipeline.cpp): the pipeline XML
compiler (`PipelineResource::load`, `parseStage`), the render-target
lifecycle (`createRenderTargets`, `resize`), introspection accessors,
and the external command registry (`ExternalPipelineCommandsManager`).

External collaborators (the XML library, the graphics device, the
resource manager, the material-class table) are modelled at their
boundary: the XML document is a tree of named nodes with string
attribute lists, the device is a function from creation requests to
handles (0 = failure), and the resource manager / class table are
abstract functions supplied by the caller.

Machine floats are modelled as rationals; 32-bit unsigned conversion is
taken modulo 2^32.
-/

namespace Horde3D

/-- 32-bit unsigned conversion of a C `int` value (`(uint32)i`). -/
def uint32ofInt (i : Int) : Nat := (i % 4294967296).toNat

/-- Modelled from the spec: `ftoi_r` (utMath.h, not part of the shown
sources) converts a float to an integer "rounded to nearest integer". -/
def ftoi_r (x : Rat) : Int := round x

/-- ASCII lower-casing of one character, as C `tolower` in the C locale. -/
def lowerChar (c : Char) : Char :=
  if 'A' ≤ c ∧ c ≤ 'Z' then Char.ofNat (c.toNat + 32) else c

/-- Case-insensitive string comparison, the model of `_stricmp(a,b) == 0`
(ASCII case folding, as the C routine does). -/
def striEq (a b : String) : Bool := a.data.map lowerChar == b.data.map lowerChar

/-- Attribute list of an XML node: ordered key/value pairs. -/
abbrev AttrList := List (String × String)

/-- `XMLNode::getAttribute(name)`: first value bound to `key`, or null. -/
def getAttr (attrs : AttrList) (key : String) : Option String :=
  (attrs.find? (fun p => p.1 == key)).map (fun p => p.2)

/-- `XMLNode::getAttribute(name, default)`: value if present, else default. -/
def getAttrD (attrs : AttrList) (key dflt : String) : String :=
  (getAttr attrs key).getD dflt

/-- Modelled from the spec: C `atoi` on an attribute string (libc, out of
scope); parses an optional sign and leading decimal digits, 0 otherwise. -/
def atoiChars : List Char → Nat → Nat
  | [], acc => acc
  | c :: cs, acc =>
    if c.isDigit then atoiChars cs (acc * 10 + (c.toNat - 48)) else acc

/-- Modelled from the spec: C `atoi` wrapper handling a leading minus. -/
def atoi (s : String) : Int :=
  match s.data with
  | '-' :: cs => -(Int.ofNat (atoiChars cs 0))
  | cs => Int.ofNat (atoiChars cs 0)

/-- Modelled from the spec: `toFloat` (utils, out of scope) parses a decimal
string such as "0.25" into the rational it denotes, 0 on garbage. -/
def toFloatFrac : List Char → Rat → Rat → Rat
  | [], acc, _ => acc
  | c :: cs, acc, p =>
    if c.isDigit then toFloatFrac cs (acc + (c.toNat - 48 : Rat) * p / 10) (p / 10)
    else acc

/-- Modelled from the spec: integer-and-fraction split of `toFloat`. -/
def toFloatCore (cs : List Char) : Rat :=
  let intPart := cs.takeWhile Char.isDigit
  let rest := cs.dropWhile Char.isDigit
  let ip : Rat := (atoiChars intPart 0 : Nat)
  match rest with
  | '.' :: frac => ip + toFloatFrac (frac.takeWhile Char.isDigit) 0 1
  | _ => ip

/-- Modelled from the spec: `toFloat` with optional leading minus. -/
def toFloat (s : String) : Rat :=
  match s.data with
  | '-' :: cs => -(toFloatCore cs)
  | cs => toFloatCore cs

/-- Texture formats accepted by the pipeline parser (closed set). -/
inductive TextureFormat where
  | BGRA8
  | RGBA16F
  | RGBA32F
deriving DecidableEq, Repr

/-- The built-in pipeline command kinds (`DefaultPipelineCommands`). -/
inductive CommandKind where
  | SwitchTarget
  | BindBuffer
  | UnbindBuffers
  | ClearTarget
  | DrawGeometry
  | DrawQuad
  | DoForwardLightLoop
  | DoDeferredLightLoop
  | SetUniform
  | ExternalCommand
deriving DecidableEq, Repr

/-- Modelled from the spec: the `RenderingOrder` enumeration (four values,
numeric tags unknown from the shown sources; only distinctness matters). -/
inductive RenderingOrder where
  | None
  | FrontToBack
  | BackToFront
  | StateChanges
deriving DecidableEq, Repr

/-- Numeric tag stored by `params[..].setInt( order )`. -/
def RenderingOrder.toInt : RenderingOrder → Int
  | .None => 0
  | .FrontToBack => 1
  | .BackToFront => 2
  | .StateChanges => 3

/-- `PipeCmdParam`: the tagged per-command parameter value. A render-target
pointer is modelled as an index into the resource's target list
(`none` = null pointer); a resolved resource handle as a `Nat`. -/
inductive PipeCmdParam where
  | pBool (b : Bool)
  | pInt (i : Int)
  | pFloat (f : Rat)
  | pString (s : String)
  | pPtr (rt : Option Nat)
  | pResource (h : Nat)
deriving DecidableEq, Repr

/-- `PipelineCommand`: kind, external registry index (-1 unless set by a
successful external parse), ordered parameters. -/
structure PipelineCommand where
  command : CommandKind
  externalCommandID : Int := -1
  params : List PipeCmdParam := []
deriving DecidableEq, Repr

/-- `PipelineStage`: id, material link (resolved handle or none), enable
flag, ordered command sequence. -/
structure PipelineStage where
  id : String := ""
  matLink : Option Nat := none
  enabled : Bool := true
  commands : List PipelineCommand := []
deriving DecidableEq, Repr

/-- `RenderTarget`: declaration fields plus the GPU handle once realized
(`rendBuf = 0` means unallocated). -/
structure RenderTarget where
  id : String
  hasDepthBuf : Bool
  numColBufs : Nat
  format : TextureFormat
  samples : Nat
  width : Nat
  height : Nat
  scale : Rat
  rendBuf : Nat := 0
deriving DecidableEq, Repr

/-- The mutable state of a `PipelineResource`. -/
structure PipelineResource where
  baseWidth : Nat
  baseHeight : Nat
  renderTargets : List RenderTarget
  stages : List PipelineStage
deriving DecidableEq, Repr

/-- `initDefault` on a fresh resource: base 320x240, nothing loaded. -/
def defaultPipelineResource : PipelineResource :=
  { baseWidth := 320, baseHeight := 240, renderTargets := [], stages := [] }

/-- `raiseError`: release all state and reset to the empty default. -/
def raiseError (_st : PipelineResource) : PipelineResource :=
  defaultPipelineResource

/-- One registered external command (`PipelineCommandRegEntry`): name plus
the parse callback, which fills the command and returns an error message
("" = success). The execute callback is modelled by the dispatch index
observed by `executeCommandExt`. -/
structure PipelineCommandRegEntry where
  comNameString : String
  parseFunc : String → AttrList → PipelineCommand → String × PipelineCommand

/-- External collaborators consulted during stage parsing: the resource
manager (`addResource`/`resolveResHandle`, yielding a resolved material
handle for a name) and the material class table (`MaterialClassCollection::addClass`). -/
structure Collaborators where
  addResource : String → Nat
  addClass : String → Int

/-- A command XML node: name and attributes (command nodes are leaves). -/
structure CmdNode where
  name : String
  attrs : AttrList
deriving DecidableEq, Repr

/-- A `Stage` XML node: attributes and ordered child command nodes. -/
structure StageNode where
  attrs : AttrList
  children : List CmdNode
deriving DecidableEq, Repr

/-- A `RenderTarget` XML node inside `Setup`. -/
structure RTNode where
  attrs : AttrList
deriving DecidableEq, Repr

/-- The parsed pipeline document as handed over by the XML library:
parse-error flag, root node name, the `RenderTarget` children of the
`Setup` section and the `Stage` children of the `CommandQueue` section
(absent sections = empty lists, matching the empty-node loops). -/
structure XMLDoc where
  hasError : Bool
  rootName : String
  setup : List RTNode
  commandQueue : List StageNode

/-- `findRenderTarget`: null for the empty id, else the first target with
a matching id (as an index standing in for the pointer). -/
def findRenderTarget (rts : List RenderTarget) (id : String) : Option Nat :=
  if id == "" then none else rts.findIdx? (fun rt => rt.id == id)

/-- Helper for the boolean attribute idiom
`_stricmp(getAttribute(k,"false"),"true")==0 || _stricmp(getAttribute(k,"0"),"1")==0`. -/
def boolAttrTrue (attrs : AttrList) (key : String) : Bool :=
  striEq (getAttrD attrs key "false") "true" || striEq (getAttrD attrs key "0") "1"

/-- The `order` attribute decode shared by DrawGeometry and
DoForwardLightLoop: case-insensitive match with StateChanges fallback. -/
def parseOrder (attrs : AttrList) : RenderingOrder :=
  let orderStr := getAttrD attrs "order" ""
  if striEq orderStr "FRONT_TO_BACK" then .FrontToBack
  else if striEq orderStr "BACK_TO_FRONT" then .BackToFront
  else if striEq orderStr "NONE" then .None
  else .StateChanges

/-- `ExternalPipelineCommandsManager::parseCommand`: scan the registry in
order; on the first name match run the parse callback, record the entry
index in the command on success and clear `success` on failure, and
return the callback's message; with no match return "" (node skipped).
Result: (message, command, success flag). -/
def parseCommandAux :
    List PipelineCommandRegEntry → Nat → String → AttrList → PipelineCommand → Bool →
    String × PipelineCommand × Bool
  | [], _, _, _, cmd, success => ("", cmd, success)
  | entry :: rest, i, commandName, xmlAttrs, cmd, success =>
    if entry.comNameString == commandName then
      let (msg, cmd2) := entry.parseFunc commandName xmlAttrs cmd
      if msg == "" then (msg, { cmd2 with externalCommandID := Int.ofNat i }, success)
      else (msg, cmd2, false)
    else parseCommandAux rest (i + 1) commandName xmlAttrs cmd success

/-- `parseCommand` entry point (scan starts at registry index 0). -/
def parseCommand (reg : List PipelineCommandRegEntry) (commandName : String)
    (xmlAttrs : AttrList) (cmd : PipelineCommand) (success : Bool) :
    String × PipelineCommand × Bool :=
  parseCommandAux reg 0 commandName xmlAttrs cmd success

/-- `ExternalPipelineCommandsManager::executeCommand`: dispatch to the
registry entry recorded in the command unless the id is -1; the result is
the index dispatched to (`none` = no dispatch, a no-op). -/
def executeCommandExt (_reg : List PipelineCommandRegEntry)
    (command : PipelineCommand) : Option Nat :=
  if command.externalCommandID != -1 then some command.externalCommandID.toNat
  else none

/-- Append a freshly built command to the stage (the
`stage.commands.push_back(...)` / fill-params idiom). -/
def pushCmd (stage : PipelineStage) (kind : CommandKind)
    (params : List PipeCmdParam) : PipelineStage :=
  { stage with commands :=
      stage.commands ++ [{ command := kind, externalCommandID := -1, params := params }] }

/-- The SwitchTarget branch of the command loop of `parseStage`. -/
def parseSwitchTarget (rts : List RenderTarget) (node : CmdNode)
    (stage : PipelineStage) : String × PipelineStage :=
  match getAttr node.attrs "target" with
  | none => ("Missing SwitchTarget attribute 'target'", stage)
  | some target =>
    if target != "" then
      match findRenderTarget rts target with
      | none => ("Reference to undefined render target in SwitchTarget", stage)
      | some rtIdx => ("", pushCmd stage .SwitchTarget [.pPtr (some rtIdx)])
    else
      ("", pushCmd stage .SwitchTarget [.pPtr none])

/-- The BindBuffer branch of the command loop of `parseStage`. -/
def parseBindBuffer (rts : List RenderTarget) (node : CmdNode)
    (stage : PipelineStage) : String × PipelineStage :=
  match getAttr node.attrs "sampler", getAttr node.attrs "sourceRT",
        getAttr node.attrs "bufIndex" with
  | some sampler, some sourceRT, some bufIndex =>
    match findRenderTarget rts sourceRT with
    | none => ("Reference to undefined render target in BindBuffer", stage)
    | some rtIdx =>
      ("", pushCmd stage .BindBuffer
            [.pPtr (some rtIdx), .pString sampler, .pInt (atoi bufIndex)])
  | _, _, _ => ("Missing BindBuffer attribute", stage)

/-- The ClearTarget branch of the command loop of `parseStage`. -/
def parseClearTarget (node : CmdNode) (stage : PipelineStage) :
    String × PipelineStage :=
  ("", pushCmd stage .ClearTarget
        [.pBool (boolAttrTrue node.attrs "depthBuf"),
         .pBool (boolAttrTrue node.attrs "colBuf0"),
         .pBool (boolAttrTrue node.attrs "colBuf1"),
         .pBool (boolAttrTrue node.attrs "colBuf2"),
         .pBool (boolAttrTrue node.attrs "colBuf3"),
         .pFloat (toFloat (getAttrD node.attrs "col_R" "0")),
         .pFloat (toFloat (getAttrD node.attrs "col_G" "0")),
         .pFloat (toFloat (getAttrD node.attrs "col_B" "0")),
         .pFloat (toFloat (getAttrD node.attrs "col_A" "0"))])

/-- The DrawGeometry branch of the command loop of `parseStage`. -/
def parseDrawGeometry (collab : Collaborators) (node : CmdNode)
    (stage : PipelineStage) : String × PipelineStage :=
  match getAttr node.attrs "context" with
  | none => ("Missing DrawGeometry attribute 'context'", stage)
  | some context =>
    ("", pushCmd stage .DrawGeometry
          [.pString context,
           .pInt (collab.addClass (getAttrD node.attrs "class" "")),
           .pInt (parseOrder node.attrs).toInt])

/-- The DrawQuad branch of the command loop of `parseStage`. -/
def parseDrawQuad (collab : Collaborators) (node : CmdNode)
    (stage : PipelineStage) : String × PipelineStage :=
  match getAttr node.attrs "material" with
  | none => ("Missing DrawQuad attribute 'material'", stage)
  | some material =>
    match getAttr node.attrs "context" with
    | none => ("Missing DrawQuad attribute 'context'", stage)
    | some context =>
      ("", pushCmd stage .DrawQuad
            [.pResource (collab.addResource material), .pString context])

/-- The DoForwardLightLoop branch of the command loop of `parseStage`. -/
def parseDoForwardLightLoop (collab : Collaborators) (node : CmdNode)
    (stage : PipelineStage) : String × PipelineStage :=
  ("", pushCmd stage .DoForwardLightLoop
        [.pString (getAttrD node.attrs "context" ""),
         .pInt (collab.addClass (getAttrD node.attrs "class" "")),
         .pBool (striEq (getAttrD node.attrs "noShadows" "false") "true"),
         .pInt (parseOrder node.attrs).toInt])

/-- The DoDeferredLightLoop branch of the command loop of `parseStage`. -/
def parseDoDeferredLightLoop (node : CmdNode) (stage : PipelineStage) :
    String × PipelineStage :=
  ("", pushCmd stage .DoDeferredLightLoop
        [.pString (getAttrD node.attrs "context" ""),
         .pBool (striEq (getAttrD node.attrs "noShadows" "false") "true")])

/-- The SetUniform branch of the command loop of `parseStage`. -/
def parseSetUniform (collab : Collaborators) (node : CmdNode)
    (stage : PipelineStage) : String × PipelineStage :=
  match getAttr node.attrs "material" with
  | none => ("Missing SetUniform attribute 'material'", stage)
  | some material =>
    match getAttr node.attrs "uniform" with
    | none => ("Missing SetUniform attribute 'uniform'", stage)
    | some uniform =>
      ("", pushCmd stage .SetUniform
            [.pResource (collab.addResource material), .pString uniform,
             .pFloat (toFloat (getAttrD node.attrs "a" "0")),
             .pFloat (toFloat (getAttrD node.attrs "b" "0")),
             .pFloat (toFloat (getAttrD node.attrs "c" "0")),
             .pFloat (toFloat (getAttrD node.attrs "d" "0"))])

/-- The extension fallback of the command loop of `parseStage` ("check
commands in extensions"): consulted only when the registry is non-empty;
an externally parsed command is appended on success, a rejection aborts,
and an unmatched name falls through with the placeholder appended. -/
def parseExternalNode (reg : List PipelineCommandRegEntry) (node : CmdNode)
    (stage : PipelineStage) : String × PipelineStage :=
  if reg.length > 0 then
    let cmd0 : PipelineCommand := { command := .ExternalCommand }
    let (msg, cmd, result) := parseCommand reg node.name node.attrs cmd0 true
    if result then
      ("", { stage with commands := stage.commands ++ [cmd] })
    else
      (msg, stage)
  else
    ("", stage)

/-- One iteration of the command loop of `PipelineResource::parseStage`:
dispatch a child node by name to the built-in builders, or offer it to
the external registry; result is (error message, updated stage) with
"" meaning success. -/
def parseStageCmd (rts : List RenderTarget) (reg : List PipelineCommandRegEntry)
    (collab : Collaborators) (node : CmdNode) (stage : PipelineStage) :
    String × PipelineStage :=
  if node.name == "SwitchTarget" then parseSwitchTarget rts node stage
  else if node.name == "BindBuffer" then parseBindBuffer rts node stage
  else if node.name == "UnbindBuffers" then ("", pushCmd stage .UnbindBuffers [])
  else if node.name == "ClearTarget" then parseClearTarget node stage
  else if node.name == "DrawGeometry" then parseDrawGeometry collab node stage
  else if node.name == "DrawQuad" then parseDrawQuad collab node stage
  else if node.name == "DoForwardLightLoop" then parseDoForwardLightLoop collab node stage
  else if node.name == "DoDeferredLightLoop" then parseDoDeferredLightLoop node stage
  else if node.name == "SetUniform" then parseSetUniform collab node stage
  else parseExternalNode reg node stage

/-- The command loop of `parseStage`: process children in order, stopping
at the first error message. -/
def parseStageCmds (rts : List RenderTarget) (reg : List PipelineCommandRegEntry)
    (collab : Collaborators) :
    List CmdNode → PipelineStage → String × PipelineStage
  | [], stage => ("", stage)
  | node :: rest, stage =>
    let (msg, stage2) := parseStageCmd rts reg collab node stage
    if msg == "" then parseStageCmds rts reg collab rest stage2
    else (msg, stage2)

/-- `PipelineResource::parseStage`: id, enabled flag, material link, then
the command loop; result is (error message, parsed stage). -/
def parseStage (rts : List RenderTarget) (reg : List PipelineCommandRegEntry)
    (collab : Collaborators) (node : StageNode) : String × PipelineStage :=
  let enabled :=
    !(striEq (getAttrD node.attrs "enabled" "true") "false" ||
      striEq (getAttrD node.attrs "enabled" "1") "0")
  let matLink :=
    if getAttrD node.attrs "link" "" != "" then
      some (collab.addResource (getAttrD node.attrs "link" ""))
    else none
  parseStageCmds rts reg collab node.children
    { id := getAttrD node.attrs "id" "", matLink := matLink,
      enabled := enabled, commands := [] }

/-- One `createRenderBuffer` request sent to the graphics device. -/
structure DeviceCall where
  width : Nat
  height : Nat
  format : TextureFormat
  depthBuf : Bool
  numColBufs : Nat
  samples : Nat
deriving DecidableEq, Repr

/-- The graphics device at its boundary: a creation request yields a
buffer handle, with 0 meaning the device rejected the allocation. -/
abbrev Device := DeviceCall → Nat

/-- The concrete pixel size computed inside `createRenderTargets`:
`width = ftoi_r(rt.width * rt.scale); if (width == 0) width = ftoi_r(_baseWidth * rt.scale)`
and the same for height. -/
def targetDims (baseWidth baseHeight : Nat) (rt : RenderTarget) : Nat × Nat :=
  let width := uint32ofInt (ftoi_r ((rt.width : Rat) * rt.scale))
  let height := uint32ofInt (ftoi_r ((rt.height : Rat) * rt.scale))
  let width := if width == 0 then uint32ofInt (ftoi_r ((baseWidth : Rat) * rt.scale)) else width
  let height := if height == 0 then uint32ofInt (ftoi_r ((baseHeight : Rat) * rt.scale)) else height
  (width, height)

/-- The loop of `PipelineResource::createRenderTargets`: realize targets in
order, stopping at the first rejected allocation; result is
(success, updated target list, creation calls issued). -/
def createRenderTargetsAux (dev : Device) (baseWidth baseHeight : Nat) :
    List RenderTarget → Bool × List RenderTarget × List DeviceCall
  | [] => (true, [], [])
  | rt :: rest =>
    let (width, height) := targetDims baseWidth baseHeight rt
    let call : DeviceCall :=
      { width := width, height := height, format := rt.format,
        depthBuf := rt.hasDepthBuf, numColBufs := rt.numColBufs, samples := rt.samples }
    let rendBuf := dev call
    let rt2 := { rt with rendBuf := rendBuf }
    if rendBuf == 0 then (false, rt2 :: rest, [call])
    else
      let (ok, rts, calls) := createRenderTargetsAux dev baseWidth baseHeight rest
      (ok, rt2 :: rts, call :: calls)

/-- `PipelineResource::createRenderTargets` on the resource state. -/
def createRenderTargets (dev : Device) (st : PipelineResource) :
    Bool × PipelineResource × List DeviceCall :=
  let (ok, rts, calls) := createRenderTargetsAux dev st.baseWidth st.baseHeight st.renderTargets
  (ok, { st with renderTargets := rts }, calls)

/-- `PipelineResource::resize`: store the new base resolution, release the
old buffers, then recreate all targets, ignoring the success flag of the
recreation; result is (new state, creation calls issued). -/
def pipelineResize (dev : Device) (st : PipelineResource) (width height : Nat) :
    PipelineResource × List DeviceCall :=
  let st1 := { st with baseWidth := width, baseHeight := height }
  let (_, st2, calls) := createRenderTargets dev st1
  (st2, calls)

/-- One `RenderTarget` node of the `Setup` section, as consumed by `load`:
required `id`, `depthBuf`, `numColBufs`; optional validated `format`;
`maxSamples` clamped by the configured sample count; `width`/`height`
default 0; `scale` default 1. -/
def parseRTNode (sampleCount : Int) (node : RTNode) : Except String RenderTarget :=
  match getAttr node.attrs "id" with
  | none => .error "Missing RenderTarget attribute 'id'"
  | some id =>
    match getAttr node.attrs "depthBuf" with
    | none => .error "Missing RenderTarget attribute 'depthBuf'"
    | some depthStr =>
      let depth := striEq depthStr "true"
      match getAttr node.attrs "numColBufs" with
      | none => .error "Missing RenderTarget attribute 'numColBufs'"
      | some numColBufsStr =>
        let numBuffers := uint32ofInt (atoi numColBufsStr)
        let formatRes : Except String TextureFormat :=
          match getAttr node.attrs "format" with
          | none => .ok .BGRA8
          | some formatStr =>
            if striEq formatStr "RGBA8" then .ok .BGRA8
            else if striEq formatStr "RGBA16F" then .ok .RGBA16F
            else if striEq formatStr "RGBA32F" then .ok .RGBA32F
            else .error "Unknown RenderTarget format"
        match formatRes with
        | .error msg => .error msg
        | .ok format =>
          let maxSamples := atoi (getAttrD node.attrs "maxSamples" "0")
          let width := uint32ofInt (atoi (getAttrD node.attrs "width" "0"))
          let height := uint32ofInt (atoi (getAttrD node.attrs "height" "0"))
          let scale := toFloat (getAttrD node.attrs "scale" "1")
          .ok { id := id, hasDepthBuf := depth, numColBufs := numBuffers,
                format := format, samples := uint32ofInt (min maxSamples sampleCount),
                width := width, height := height, scale := scale, rendBuf := 0 }

/-- The `Setup` loop of `load`: append one target per `RenderTarget` node,
aborting on the first malformed node. -/
def parseSetupLoop (sampleCount : Int) :
    List RTNode → List RenderTarget → Except String (List RenderTarget)
  | [], acc => .ok acc
  | node :: rest, acc =>
    match parseRTNode sampleCount node with
    | .error msg => .error msg
    | .ok rt => parseSetupLoop sampleCount rest (acc ++ [rt])

/-- The `CommandQueue` loop of `load`: one parsed stage per `Stage` node,
aborting with the stage-tagged message on the first error. -/
def parseStagesLoop (rts : List RenderTarget) (reg : List PipelineCommandRegEntry)
    (collab : Collaborators) :
    List StageNode → List PipelineStage → Except String (List PipelineStage)
  | [], acc => .ok acc
  | node :: rest, acc =>
    let (msg, stage) := parseStage rts reg collab node
    if msg == "" then parseStagesLoop rts reg collab rest (acc ++ [stage])
    else .error ("Error in stage '" ++ stage.id ++ "': " ++ msg)

/-- Outcome of `PipelineResource::load`: return value, final resource
state, error message ("" on success) and the device creation calls made
during the load. -/
structure LoadResult where
  ok : Bool
  state : PipelineResource
  errorMsg : String
  deviceCalls : List DeviceCall
deriving Repr

/-- `PipelineResource::load` after the generic `Resource::load` data check
(egResource.cpp, out of the shown sources): XML parse check, root-name
check, `Setup` and `CommandQueue` parsing, then render-target
realization; every failure goes through `raiseError`, which resets the
resource to the empty default and returns false. -/
def pipelineLoad (sampleCount : Int) (reg : List PipelineCommandRegEntry)
    (collab : Collaborators) (dev : Device) (doc : XMLDoc)
    (st : PipelineResource) : LoadResult :=
  if doc.hasError then
    { ok := false, state := raiseError st, errorMsg := "XML parsing error", deviceCalls := [] }
  else if doc.rootName != "Pipeline" then
    { ok := false, state := raiseError st, errorMsg := "Not a pipeline resource file",
      deviceCalls := [] }
  else
    match parseSetupLoop sampleCount doc.setup st.renderTargets with
    | .error msg =>
      { ok := false, state := raiseError st, errorMsg := msg, deviceCalls := [] }
    | .ok rts =>
      match parseStagesLoop rts reg collab doc.commandQueue st.stages with
      | .error msg =>
        { ok := false, state := raiseError st, errorMsg := msg, deviceCalls := [] }
      | .ok stages =>
        let st1 := { st with renderTargets := rts, stages := stages }
        match createRenderTargets dev st1 with
        | (true, st2, calls) =>
          { ok := true, state := st2, errorMsg := "", deviceCalls := calls }
        | (false, _, calls) =>
          { ok := false, state := raiseError st1, errorMsg := "Failed to create render target",
            deviceCalls := calls }

/-- Modelled from the spec: the `PipelineResData` element/parameter keys
("small integer enumerations", egPipeline.h not among the shown sources;
only distinctness matters). -/
def StageElem : Int := 900

/-- Modelled from the spec: the per-stage activation-flag parameter key. -/
def StageActivationI : Int := 901

/-- Modelled from the spec: the per-stage name parameter key. -/
def StageNameStr : Int := 902

/-- `PipelineResource::getElemParamI`: the stage-activation read; `none`
models falling through to the generic `Resource::getElemParamI` handler
(egResource.cpp, out of the shown sources), which does not access the
stage sequence. The C `(unsigned)elemIdx` cast is modulo 2^32. -/
def pipeGetElemParamI (st : PipelineResource) (elem elemIdx param : Int) : Option Int :=
  if elem == StageElem then
    if uint32ofInt elemIdx < st.stages.length then
      if param == StageActivationI then
        some (if (st.stages.getD (uint32ofInt elemIdx) {}).enabled then 1 else 0)
      else none
    else none
  else none

/-- `PipelineResource::setElemParamI`: the stage-activation write; the
flag is true when the branch handled the call, false models delegation to
the generic `Resource::setElemParamI` handler, which does not access the
stage sequence (the state is returned unchanged in that case). -/
def pipeSetElemParamI (st : PipelineResource) (elem elemIdx param value : Int) :
    PipelineResource × Bool :=
  if elem == StageElem then
    if uint32ofInt elemIdx < st.stages.length then
      if param == StageActivationI then
        let idx := uint32ofInt elemIdx
        let newStages := st.stages.set idx
          { st.stages.getD idx {} with enabled := value != 0 }
        ({ st with stages := newStages }, true)
      else (st, false)
    else (st, false)
  else (st, false)

/-- `PipelineResource::getElemParamStr`: the stage-name read; `none`
models delegation to the generic `Resource::getElemParamStr` handler. -/
def pipeGetElemParamStr (st : PipelineResource) (elem elemIdx param : Int) : Option String :=
  if elem == StageElem then
    if uint32ofInt elemIdx < st.stages.length then
      if param == StageNameStr then
        some (st.stages.getD (uint32ofInt elemIdx) {}).id
      else none
    else none
  else none

/-- `PipelineResource::getElemCount` for the stage element. -/
def pipeGetElemCount (st : PipelineResource) (elem : Int) : Option Int :=
  if elem == StageElem then some (st.stages.length : Int) else none

/-- A render target with its GPU handle forgotten: the declaration part
(id, buffers, format, samples, size policy). -/
def stripBuf (rt : RenderTarget) : RenderTarget := { rt with rendBuf := 0 }

/-- The realized pixel dimensions of every target of a resource, derived
from its stored base resolution and declarations. -/
def resourceDims (st : PipelineResource) : List (Nat × Nat) :=
  st.renderTargets.map (targetDims st.baseWidth st.baseHeight)

/-- The command-node names handled by a built-in builder in `parseStage`. -/
def isBuiltinCmdName (s : String) : Bool :=
  s == "SwitchTarget" || s == "BindBuffer" || s == "UnbindBuffers" ||
  s == "ClearTarget" || s == "DrawGeometry" || s == "DrawQuad" ||
  s == "DoForwardLightLoop" || s == "DoDeferredLightLoop" || s == "SetUniform"

/-- A `BindBuffer` command node lacking at least one of its three
required attributes. -/
def bindBufferMissingAttr (node : CmdNode) : Prop :=
  node.name = "BindBuffer" ∧
  (getAttr node.attrs "sampler" = none ∨ getAttr node.attrs "sourceRT" = none ∨
   getAttr node.attrs "bufIndex" = none)

instance (node : CmdNode) : Decidable (bindBufferMissingAttr node) := by
  unfold bindBufferMissingAttr; infer_instance

/-- The inert command pushed when the registry is non-empty but no entry
matches a node name: kind ExternalCommand, registry id still -1. -/
def inertExternalCmd : PipelineCommand :=
  { command := .ExternalCommand, externalCommandID := -1, params := [] }

/-- Trivial collaborators used to instantiate closed evaluations. -/
def collabW : Collaborators := { addResource := fun _ => 1, addClass := fun _ => 0 }

/-- A device that accepts every allocation. -/
def devOk : Device := fun _ => 1

/-- A registry with a single entry named "Foo" whose parse always succeeds. -/
def regFoo : List PipelineCommandRegEntry :=
  [{ comNameString := "Foo", parseFunc := fun _ _ c => ("", c) }]

/-- A document the XML library rejects. -/
def docXmlError : XMLDoc :=
  { hasError := true, rootName := "", setup := [], commandQueue := [] }

/-- A well-formed document whose only stage holds a `BindBuffer` node
with a single attribute, missing `sourceRT` and `bufIndex`. -/
def docBadBindBuffer : XMLDoc :=
  { hasError := false, rootName := "Pipeline", setup := [],
    commandQueue := [{ attrs := [("id", "s")],
                       children := [{ name := "BindBuffer", attrs := [("sampler", "x")] }] }] }

/-- A declared render target with width 1 and scale 1/4: the rounded
product is 0, so realization falls back to the base resolution. -/
def rtQuarter : RenderTarget :=
  { id := "t", hasDepthBuf := false, numColBufs := 1, format := .BGRA8,
    samples := 0, width := 1, height := 0, scale := 1/4, rendBuf := 0 }

/-- A derived-size render target (width 0, height 0, scale 1/2). -/
def rtDerived : RenderTarget :=
  { id := "d", hasDepthBuf := true, numColBufs := 1, format := .BGRA8,
    samples := 0, width := 0, height := 0, scale := 1/2, rendBuf := 5 }

/-- A loaded-looking resource with one derived-size target and one stage. -/
def stLoaded : PipelineResource :=
  { baseWidth := 800, baseHeight := 600, renderTargets := [rtDerived],
    stages := [{ id := "s", matLink := none, enabled := true, commands := [] }] }

/-- A declared render target with a fixed width of 2 and scale 1. -/
def rtTwo : RenderTarget :=
  { id := "u", hasDepthBuf := false, numColBufs := 1, format := .BGRA8,
    samples := 0, width := 2, height := 0, scale := 1, rendBuf := 0 }

/-- C1: whenever a load detects any error (XML error, wrong root, malformed
Setup or CommandQueue node, dangling reference, external rejection, or
render-target creation failure — exactly the cases that produce a non-empty
error message), `load` returns false and the resource is reset to the
empty default state (base 320x240, zero stages, zero render targets). -/
theorem load_error_resets (sampleCount : Int) (reg : List PipelineCommandRegEntry)
    (collab : Collaborators) (dev : Device) (doc : XMLDoc) (st : PipelineResource)
    (herr : (pipelineLoad sampleCount reg collab dev doc st).errorMsg ≠ "") :
    (pipelineLoad sampleCount reg collab dev doc st).ok = false ∧
    (pipelineLoad sampleCount reg collab dev doc st).state = defaultPipelineResource := by
  unfold pipelineLoad at herr ⊢
  repeat' split at herr
  all_goals repeat' split
  all_goals try simp_all [raiseError]
  rename_i x1 rts x2 stages hroot hsetup hstages hhas
  rcases hcr : createRenderTargets dev
      { baseWidth := st.baseWidth, baseHeight := st.baseHeight,
        renderTargets := rts, stages := stages } with ⟨ok, st2, calls⟩
  cases ok <;> simp_all [raiseError]

/-- Witness for C1: a document the XML library rejects makes `load` fail
and leaves the default state. -/
theorem load_error_resets_witness :
    (pipelineLoad 1 [] collabW devOk docXmlError defaultPipelineResource).errorMsg ≠ "" ∧
    (pipelineLoad 1 [] collabW devOk docXmlError defaultPipelineResource).ok = false ∧
    (pipelineLoad 1 [] collabW devOk docXmlError defaultPipelineResource).state =
      defaultPipelineResource :=
  ⟨by decide, load_error_resets 1 [] collabW devOk docXmlError defaultPipelineResource (by decide)⟩

/-- A registry scan that matches no entry leaves the command and the
success flag untouched and returns the empty message. -/
theorem parseCommandAux_no_match (reg : List PipelineCommandRegEntry) (i : Nat)
    (name : String) (attrs : AttrList) (cmd : PipelineCommand) (s : Bool)
    (h : ∀ e ∈ reg, e.comNameString ≠ name) :
    parseCommandAux reg i name attrs cmd s = ("", cmd, s) := by
  induction reg generalizing i with
  | nil => rfl
  | cons e rest ih =>
    have he : (e.comNameString == name) = false := by
      simp [h e (by simp)]
    simp only [parseCommandAux, he, Bool.false_eq_true, if_false]
    exact ih _ (fun e' hm => h e' (by simp [hm]))

/-- C2 (amended): a command node matching no built-in and no registry
entry never aborts compilation, and the remaining nodes are still
compiled; with an empty registry nothing is appended, but with a
non-empty registry an inert ExternalCommand (externalCommandID -1, never
dispatched) is appended to the stage's command sequence. -/
theorem unknown_command_inert (rts : List RenderTarget) (reg : List PipelineCommandRegEntry)
    (collab : Collaborators) (node : CmdNode) (stage : PipelineStage)
    (hb : isBuiltinCmdName node.name = false)
    (hr : ∀ e ∈ reg, e.comNameString ≠ node.name) :
    parseStageCmd rts reg collab node stage =
      ("", if reg.length = 0 then stage
           else { stage with commands := stage.commands ++ [inertExternalCmd] }) ∧
    ∀ rest, parseStageCmds rts reg collab (node :: rest) stage =
      parseStageCmds rts reg collab rest
        (if reg.length = 0 then stage
         else { stage with commands := stage.commands ++ [inertExternalCmd] }) := by
  simp only [isBuiltinCmdName, Bool.or_eq_false_iff, beq_eq_false_iff_ne, ne_eq] at hb
  obtain ⟨⟨⟨⟨⟨⟨⟨⟨h1, h2⟩, h3⟩, h4⟩, h5⟩, h6⟩, h7⟩, h8⟩, h9⟩ := hb
  have hmain : parseStageCmd rts reg collab node stage =
      ("", if reg.length = 0 then stage
           else { stage with commands := stage.commands ++ [inertExternalCmd] }) := by
    unfold parseStageCmd parseExternalNode
    simp only [beq_iff_eq, h1, h2, h3, h4, h5, h6, h7, h8, h9, if_false]
    cases reg with
    | nil => simp
    | cons e rest =>
      have hlen : (e :: rest).length > 0 := by simp
      simp only [hlen, if_true, List.length_cons, Nat.succ_ne_zero, if_false]
      rw [parseCommand, parseCommandAux_no_match _ _ _ _ _ _ hr]
      simp [inertExternalCmd]
  refine ⟨hmain, fun rest => ?_⟩
  conv_lhs => unfold parseStageCmds
  rw [hmain]
  simp

/-- Counterexample to C2 as stated: with a registry holding one entry
named "Foo", parsing the unknown node "Bar" succeeds but appends one
command (the inert external command) to the previously empty stage,
contradicting "no command is appended". -/
theorem unknown_command_counterexample :
    (parseStageCmd [] regFoo collabW { name := "Bar", attrs := [] } {}).1 = "" ∧
    ((parseStageCmd [] regFoo collabW { name := "Bar", attrs := [] } {}).2).commands =
      [inertExternalCmd] := ⟨rfl, rfl⟩

/-- Witness for C2 (amended) at the registry `regFoo` and node "Bar". -/
theorem unknown_command_inert_witness :
    parseStageCmd [] regFoo collabW { name := "Bar", attrs := [] } {} =
      ("", if regFoo.length = 0 then {}
           else { ({} : PipelineStage) with
                    commands := ({} : PipelineStage).commands ++ [inertExternalCmd] }) :=
  (unknown_command_inert [] regFoo collabW { name := "Bar", attrs := [] } {} (by decide)
    (by intro e he; simp [regFoo] at he; subst he; decide)).1

/-- Counterexample to C3 as stated: a SwitchTarget node carrying no
`target` attribute aborts with a missing-attribute message and appends
nothing, contradicting "no attribute is required". -/
theorem switchTarget_counterexample :
    (parseStageCmd [] [] collabW { name := "SwitchTarget", attrs := [] } {}).1 =
      "Missing SwitchTarget attribute 'target'" ∧
    ((parseStageCmd [] [] collabW { name := "SwitchTarget", attrs := [] } {}).2).commands =
      [] := ⟨rfl, rfl⟩

/-- C3 (amended): the `target` attribute of SwitchTarget is required (its
absence aborts with a missing-attribute error); an empty value selects the
default backbuffer (null render-target parameter); a non-empty value
naming an undeclared target aborts; a declared one is bound by pointer. -/
theorem switchTarget_amended (rts : List RenderTarget) (reg : List PipelineCommandRegEntry)
    (collab : Collaborators) (stage : PipelineStage) (attrs : AttrList) :
    (getAttr attrs "target" = none →
      parseStageCmd rts reg collab { name := "SwitchTarget", attrs := attrs } stage =
        ("Missing SwitchTarget attribute 'target'", stage)) ∧
    (getAttr attrs "target" = some "" →
      parseStageCmd rts reg collab { name := "SwitchTarget", attrs := attrs } stage =
        ("", pushCmd stage .SwitchTarget [.pPtr none])) ∧
    (∀ t, getAttr attrs "target" = some t → t ≠ "" → findRenderTarget rts t = none →
      parseStageCmd rts reg collab { name := "SwitchTarget", attrs := attrs } stage =
        ("Reference to undefined render target in SwitchTarget", stage)) ∧
    (∀ t i, getAttr attrs "target" = some t → t ≠ "" → findRenderTarget rts t = some i →
      parseStageCmd rts reg collab { name := "SwitchTarget", attrs := attrs } stage =
        ("", pushCmd stage .SwitchTarget [.pPtr (some i)])) := by
  refine ⟨?_, ?_, ?_, ?_⟩
  · intro h
    simp [parseStageCmd, parseSwitchTarget, h]
  · intro h
    simp [parseStageCmd, parseSwitchTarget, h]
  · intro t h ht hf
    have ht' : (t != "") = true := by simp [ht]
    simp [parseStageCmd, parseSwitchTarget, h, ht', hf]
  · intro t i h ht hf
    have ht' : (t != "") = true := by simp [ht]
    simp [parseStageCmd, parseSwitchTarget, h, ht', hf]

/-- Witness for C3 (amended): an empty-valued `target` attribute selects
the default backbuffer. -/
theorem switchTarget_amended_witness :
    parseStageCmd [] [] collabW { name := "SwitchTarget", attrs := [("target", "")] } {} =
      ("", pushCmd {} .SwitchTarget [.pPtr none]) :=
  (switchTarget_amended [] [] collabW {} [("target", "")]).2.1 rfl

/-- Counterexample to C4 as stated: the target `rtQuarter` has declared
width 1 (non-zero) and scale 1/4, yet the realized width sent to the
device is 80 = round(baseWidth * scale), not round(declaredWidth * scale)
= 0: the fallback is keyed on the rounded product being zero, not on the
declared width being zero. -/
theorem targetDims_counterexample :
    rtQuarter.width ≠ 0 ∧
    uint32ofInt (ftoi_r ((rtQuarter.width : Rat) * rtQuarter.scale)) = 0 ∧
    ((createRenderTargetsAux devOk 320 240 [rtQuarter]).2.2.head?).map DeviceCall.width =
      some 80 ∧
    (80 : Nat) ≠ uint32ofInt (ftoi_r ((rtQuarter.width : Rat) * rtQuarter.scale)) := by
  have e1 : ftoi_r ((rtQuarter.width : Rat) * rtQuarter.scale) = 0 := by
    simp only [rtQuarter, ftoi_r]
    norm_num [round_eq]
  have e2 : ftoi_r ((320 : Rat) * rtQuarter.scale) = 80 := by
    simp only [rtQuarter, ftoi_r]
    norm_num [round_eq]
  have e3 : ftoi_r ((rtQuarter.height : Rat) * rtQuarter.scale) = 0 := by
    simp only [rtQuarter, ftoi_r]
    norm_num
  have e4 : ftoi_r ((240 : Rat) * rtQuarter.scale) = 60 := by
    simp only [rtQuarter, ftoi_r]
    norm_num [round_eq]
  have hw1 : uint32ofInt (ftoi_r ((rtQuarter.width : Rat) * rtQuarter.scale)) = 0 := by
    rw [e1]; decide
  have hw2 : uint32ofInt (ftoi_r ((320 : Rat) * rtQuarter.scale)) = 80 := by
    rw [e2]; decide
  have hh1 : uint32ofInt (ftoi_r ((rtQuarter.height : Rat) * rtQuarter.scale)) = 0 := by
    rw [e3]; decide
  have hh2 : uint32ofInt (ftoi_r ((240 : Rat) * rtQuarter.scale)) = 60 := by
    rw [e4]; decide
  refine ⟨by decide, hw1, ?_, by rw [hw1]; decide⟩
  simp [createRenderTargetsAux, targetDims, hw1, hw2, hh1, hh2, devOk]

/-- C4 (amended): the creation request for a target carries exactly the
dimensions of `targetDims`; the realized width is round(declaredWidth x
scale) whenever that rounded value is non-zero, and round(baseWidth x
scale) whenever the rounded product is zero (in particular whenever the
declared width is zero); the same rule holds for the height. -/
theorem targetDims_amended (dev : Device) (baseW baseH : Nat) (rt : RenderTarget)
    (rest : List RenderTarget) :
    ((createRenderTargetsAux dev baseW baseH (rt :: rest)).2.2).head? =
      some { width := (targetDims baseW baseH rt).1, height := (targetDims baseW baseH rt).2,
             format := rt.format, depthBuf := rt.hasDepthBuf,
             numColBufs := rt.numColBufs, samples := rt.samples } ∧
    (uint32ofInt (ftoi_r ((rt.width : Rat) * rt.scale)) ≠ 0 →
      (targetDims baseW baseH rt).1 = uint32ofInt (ftoi_r ((rt.width : Rat) * rt.scale))) ∧
    (uint32ofInt (ftoi_r ((rt.width : Rat) * rt.scale)) = 0 →
      (targetDims baseW baseH rt).1 = uint32ofInt (ftoi_r ((baseW : Rat) * rt.scale))) ∧
    (uint32ofInt (ftoi_r ((rt.height : Rat) * rt.scale)) ≠ 0 →
      (targetDims baseW baseH rt).2 = uint32ofInt (ftoi_r ((rt.height : Rat) * rt.scale))) ∧
    (uint32ofInt (ftoi_r ((rt.height : Rat) * rt.scale)) = 0 →
      (targetDims baseW baseH rt).2 = uint32ofInt (ftoi_r ((baseH : Rat) * rt.scale))) := by
  refine ⟨?_, ?_, ?_, ?_, ?_⟩
  · unfold createRenderTargetsAux
    rcases hd : targetDims baseW baseH rt with ⟨w, h⟩
    simp only [hd]
    split <;> simp
  · intro h
    simp [targetDims, h]
  · intro h
    simp [targetDims, h]
  · intro h
    simp [targetDims, h]
  · intro h
    simp [targetDims, h]

/-- Witness for C4 (amended): a declared width of 2 at scale 1 realizes
as round(2 x 1). -/
theorem targetDims_amended_witness :
    uint32ofInt (ftoi_r ((rtTwo.width : Rat) * rtTwo.scale)) ≠ 0 ∧
    (targetDims 320 240 rtTwo).1 = uint32ofInt (ftoi_r ((rtTwo.width : Rat) * rtTwo.scale)) :=
  have hside : uint32ofInt (ftoi_r ((rtTwo.width : Rat) * rtTwo.scale)) ≠ 0 := by
    simp [rtTwo, ftoi_r, uint32ofInt]
  ⟨hside, (targetDims_amended devOk 320 240 rtTwo []).2.1 hside⟩

/-- Recreating render targets changes only their GPU handles: the
declaration parts are preserved element by element. -/
theorem createRenderTargetsAux_stripBuf (dev : Device) (w h : Nat) :
    ∀ rts : List RenderTarget,
      ((createRenderTargetsAux dev w h rts).2.1).map stripBuf = rts.map stripBuf := by
  intro rts
  induction rts with
  | nil => rfl
  | cons rt rest ih =>
    rcases hd : targetDims w h rt with ⟨dw, dh⟩
    unfold createRenderTargetsAux
    rw [hd]
    rcases haux : createRenderTargetsAux dev w h rest with ⟨ok, rts2, calls⟩
    rw [haux] at ih
    simp only [haux]
    by_cases hdev : dev { width := dw, height := dh, format := rt.format, depthBuf := rt.hasDepthBuf, numColBufs := rt.numColBufs, samples := rt.samples } = 0
    · simp [hdev, stripBuf]
    · simp [hdev, stripBuf, ih]

/-- Realized dimensions depend only on the declaration parts. -/
theorem map_targetDims_congr (w h : Nat) (xs ys : List RenderTarget)
    (hxy : xs.map stripBuf = ys.map stripBuf) :
    xs.map (targetDims w h) = ys.map (targetDims w h) := by
  have hfun : ∀ zs : List RenderTarget,
      zs.map (targetDims w h) = (zs.map stripBuf).map (targetDims w h) := by
    intro zs
    rw [List.map_map]
    have : targetDims w h ∘ stripBuf = targetDims w h := funext (fun rt => rfl)
    rw [this]
  rw [hfun xs, hfun ys, hxy]

/-- Resize stores the new base resolution and preserves the stage
sequence and all render-target declarations. -/
theorem pipelineResize_spec (dev : Device) (st : PipelineResource) (w h : Nat) :
    (pipelineResize dev st w h).1.baseWidth = w ∧
    (pipelineResize dev st w h).1.baseHeight = h ∧
    (pipelineResize dev st w h).1.stages = st.stages ∧
    (pipelineResize dev st w h).1.renderTargets.map stripBuf =
      st.renderTargets.map stripBuf := by
  have hstrip := createRenderTargetsAux_stripBuf dev w h st.renderTargets
  unfold pipelineResize createRenderTargets
  rcases haux : createRenderTargetsAux dev w h st.renderTargets with ⟨ok, rts2, calls⟩
  rw [haux] at hstrip
  simp_all

/-- C5: for a resource whose targets all use derived sizing, resizing to
any (W2, H2) and back to the original base resolution realizes exactly
the original render-target dimensions. -/
theorem resize_roundtrip (dev1 dev2 : Device) (st : PipelineResource) (W2 H2 : Nat)
    (_hder : ∀ rt ∈ st.renderTargets, rt.width = 0 ∧ rt.height = 0) :
    resourceDims (pipelineResize dev2 (pipelineResize dev1 st W2 H2).1
        st.baseWidth st.baseHeight).1 = resourceDims st := by
  obtain ⟨hb1, hh1, _, hm1⟩ := pipelineResize_spec dev1 st W2 H2
  obtain ⟨hb2, hh2, _, hm2⟩ :=
    pipelineResize_spec dev2 (pipelineResize dev1 st W2 H2).1 st.baseWidth st.baseHeight
  unfold resourceDims
  rw [hb2, hh2]
  exact map_targetDims_congr _ _ _ _ (hm2.trans hm1)

/-- Witness for C5 at a one-target derived-size resource. -/
theorem resize_roundtrip_witness :
    (∀ rt ∈ stLoaded.renderTargets, rt.width = 0 ∧ rt.height = 0) ∧
    resourceDims (pipelineResize devOk (pipelineResize devOk stLoaded 1024 768).1
        stLoaded.baseWidth stLoaded.baseHeight).1 = resourceDims stLoaded :=
  have hder : ∀ rt ∈ stLoaded.renderTargets, rt.width = 0 ∧ rt.height = 0 := by
    intro rt hrt
    simp only [stLoaded, List.mem_singleton] at hrt
    subst hrt
    exact ⟨rfl, rfl⟩
  ⟨hder, resize_roundtrip devOk devOk stLoaded 1024 768 hder⟩

/-- C9: `resize` always stores the new base resolution and returns with
the stage sequence and the render-target declarations intact, for every
device behavior (it never checks the recreation result and reports no
error); with a device that rejects every allocation, a target is left
with a null handle (unrealized) while the resource is otherwise kept. -/
theorem resize_unchecked (dev : Device) (st : PipelineResource) (w h : Nat) :
    (pipelineResize dev st w h).1.baseWidth = w ∧
    (pipelineResize dev st w h).1.baseHeight = h ∧
    (pipelineResize dev st w h).1.stages = st.stages ∧
    (pipelineResize dev st w h).1.renderTargets.map stripBuf =
      st.renderTargets.map stripBuf ∧
    (∀ rt0 rest, st.renderTargets = rt0 :: rest →
      ∃ rt ∈ (pipelineResize (fun _ => 0) st w h).1.renderTargets, rt.rendBuf = 0) := by
  obtain ⟨hb, hh, hs, hm⟩ := pipelineResize_spec dev st w h
  refine ⟨hb, hh, hs, hm, ?_⟩
  intro rt0 rest hrts
  unfold pipelineResize createRenderTargets createRenderTargetsAux
  rw [hrts]
  rcases hd : targetDims w h rt0 with ⟨dw, dh⟩
  simp [stripBuf]

/-- Witness for C9 at a one-target resource and an always-failing device. -/
theorem resize_unchecked_witness :
    stLoaded.renderTargets = rtDerived :: [] ∧
    ∃ rt ∈ (pipelineResize (fun _ => 0) stLoaded 10 20).1.renderTargets, rt.rendBuf = 0 :=
  ⟨rfl, (resize_unchecked (fun _ => 0) stLoaded 10 20).2.2.2.2 rtDerived [] rfl⟩

/-- A BindBuffer node lacking a required attribute yields exactly the
missing-attribute message and leaves the stage untouched. -/
theorem parseStageCmd_bindBuffer_missing (rts : List RenderTarget)
    (reg : List PipelineCommandRegEntry) (collab : Collaborators) (node : CmdNode)
    (stage : PipelineStage) (h : bindBufferMissingAttr node) :
    (parseStageCmd rts reg collab node stage).1 = "Missing BindBuffer attribute" ∧
    (parseStageCmd rts reg collab node stage).2 = stage := by
  obtain ⟨hname, hattr⟩ := h
  rcases hs1 : getAttr node.attrs "sampler" with _ | v1 <;>
  rcases hs2 : getAttr node.attrs "sourceRT" with _ | v2 <;>
  rcases hs3 : getAttr node.attrs "bufIndex" with _ | v3 <;>
    simp_all [parseStageCmd, parseBindBuffer, hname]

/-- A command list containing a BindBuffer node with a missing required
attribute never parses cleanly. -/
theorem parseStageCmds_error (rts : List RenderTarget)
    (reg : List PipelineCommandRegEntry) (collab : Collaborators) :
    ∀ (nodes : List CmdNode) (stage : PipelineStage),
      (∃ node ∈ nodes, bindBufferMissingAttr node) →
      (parseStageCmds rts reg collab nodes stage).1 ≠ "" := by
  intro nodes
  induction nodes with
  | nil =>
    intro stage h
    obtain ⟨node, hmem, _⟩ := h
    exact absurd hmem (List.not_mem_nil node)
  | cons n rest ih =>
    intro stage h
    obtain ⟨node, hmem, hbad⟩ := h
    rcases List.mem_cons.mp hmem with heq | hrest
    · subst heq
      have hmsg := (parseStageCmd_bindBuffer_missing rts reg collab node stage hbad).1
      unfold parseStageCmds
      rcases hp : parseStageCmd rts reg collab node stage with ⟨msg, st2⟩
      rw [hp] at hmsg
      simp only at hmsg
      subst hmsg
      simp
    · unfold parseStageCmds
      rcases hp : parseStageCmd rts reg collab n stage with ⟨msg, st2⟩
      by_cases hmsg : msg = ""
      · subst hmsg
        simpa using ih st2 ⟨node, hrest, hbad⟩
      · simp [hmsg]

/-- A stage whose children contain a malformed BindBuffer node reports an
error. -/
theorem parseStage_error (rts : List RenderTarget)
    (reg : List PipelineCommandRegEntry) (collab : Collaborators) (sn : StageNode)
    (h : ∃ c ∈ sn.children, bindBufferMissingAttr c) :
    (parseStage rts reg collab sn).1 ≠ "" := by
  unfold parseStage
  exact parseStageCmds_error rts reg collab sn.children _ h

/-- The stage loop aborts with an error when any stage holds a malformed
BindBuffer node. -/
theorem parseStagesLoop_error (rts : List RenderTarget)
    (reg : List PipelineCommandRegEntry) (collab : Collaborators) :
    ∀ (stageNodes : List StageNode) (acc : List PipelineStage),
      (∃ sn ∈ stageNodes, ∃ c ∈ sn.children, bindBufferMissingAttr c) →
      ∃ msg, parseStagesLoop rts reg collab stageNodes acc = .error msg := by
  intro stageNodes
  induction stageNodes with
  | nil =>
    intro acc h
    obtain ⟨sn, hmem, _⟩ := h
    exact absurd hmem (List.not_mem_nil sn)
  | cons sn rest ih =>
    intro acc h
    obtain ⟨sn', hmem, hbad⟩ := h
    rcases List.mem_cons.mp hmem with heq | hrest
    · subst heq
      have hmsg := parseStage_error rts reg collab sn' hbad
      unfold parseStagesLoop
      rcases hp : parseStage rts reg collab sn' with ⟨msg, stg⟩
      rw [hp] at hmsg
      simp only at hmsg
      simp [hmsg]
    · unfold parseStagesLoop
      rcases hp : parseStage rts reg collab sn with ⟨msg, stg⟩
      by_cases hmsg : msg = ""
      · subst hmsg
        simpa using ih _ ⟨sn', hrest, hbad⟩
      · simp [hmsg]

/-- C6: a description holding a BindBuffer node that lacks any of
`sampler`, `sourceRT` or `bufIndex` makes `load` fail with no device
render-buffer creation call issued (no render target realized) and the
resource reset to the default; at the node the reported message is
exactly the missing-attribute error. -/
theorem bindBuffer_missing_aborts (sampleCount : Int) (reg : List PipelineCommandRegEntry)
    (collab : Collaborators) (dev : Device) (doc : XMLDoc) (st : PipelineResource)
    (h : ∃ sn ∈ doc.commandQueue, ∃ c ∈ sn.children, bindBufferMissingAttr c) :
    (pipelineLoad sampleCount reg collab dev doc st).ok = false ∧
    (pipelineLoad sampleCount reg collab dev doc st).deviceCalls = [] ∧
    (pipelineLoad sampleCount reg collab dev doc st).state = defaultPipelineResource ∧
    ∀ (rts : List RenderTarget) (stage : PipelineStage) (node : CmdNode),
      bindBufferMissingAttr node →
      (parseStageCmd rts reg collab node stage).1 = "Missing BindBuffer attribute" := by
  have hmsg : ∀ (rts : List RenderTarget) (stage : PipelineStage) (node : CmdNode),
      bindBufferMissingAttr node →
      (parseStageCmd rts reg collab node stage).1 = "Missing BindBuffer attribute" :=
    fun rts stage node hb => (parseStageCmd_bindBuffer_missing rts reg collab node stage hb).1
  have hloop : ∀ (rts : List RenderTarget) (acc : List PipelineStage)
      (stages : List PipelineStage),
      parseStagesLoop rts reg collab doc.commandQueue acc ≠ Except.ok stages := by
    intro rts acc stages heq
    obtain ⟨msg, hm⟩ := parseStagesLoop_error rts reg collab doc.commandQueue acc h
    rw [hm] at heq
    exact Except.noConfusion heq
  refine ⟨?_, ?_, ?_, hmsg⟩ <;>
  · unfold pipelineLoad
    repeat' split
    all_goals try rfl
    all_goals
      (rename_i heqStages
       exact absurd heqStages (hloop _ _ _))

/-- Witness for C6 at a document whose only stage holds a BindBuffer node
with only a `sampler` attribute. -/
theorem bindBuffer_missing_aborts_witness :
    (∃ sn ∈ docBadBindBuffer.commandQueue, ∃ c ∈ sn.children, bindBufferMissingAttr c) ∧
    (pipelineLoad 1 [] collabW devOk docBadBindBuffer defaultPipelineResource).ok = false ∧
    (pipelineLoad 1 [] collabW devOk docBadBindBuffer defaultPipelineResource).deviceCalls = [] ∧
    (pipelineLoad 1 [] collabW devOk docBadBindBuffer defaultPipelineResource).state =
      defaultPipelineResource :=
  have hx : ∃ sn ∈ docBadBindBuffer.commandQueue, ∃ c ∈ sn.children, bindBufferMissingAttr c :=
    ⟨{ attrs := [("id", "s")],
       children := [{ name := "BindBuffer", attrs := [("sampler", "x")] }] }, by decide,
     { name := "BindBuffer", attrs := [("sampler", "x")] }, by decide, by decide⟩
  have hmain := bindBuffer_missing_aborts 1 [] collabW devOk docBadBindBuffer
    defaultPipelineResource hx
  ⟨hx, hmain.1, hmain.2.1, hmain.2.2.1⟩

/-- No branch of the command dispatch changes a stage's enabled flag. -/
theorem parseStageCmd_enabled (rts : List RenderTarget) (reg : List PipelineCommandRegEntry)
    (collab : Collaborators) (node : CmdNode) (stage : PipelineStage) :
    ((parseStageCmd rts reg collab node stage).2).enabled = stage.enabled := by
  have hsw : ∀ n s, ((parseSwitchTarget rts n s).2).enabled = s.enabled := by
    intro n s
    unfold parseSwitchTarget pushCmd
    repeat' split
    all_goals simp
  have hbb : ∀ n s, ((parseBindBuffer rts n s).2).enabled = s.enabled := by
    intro n s
    unfold parseBindBuffer pushCmd
    repeat' split
    all_goals simp
  have hdg : ∀ n s, ((parseDrawGeometry collab n s).2).enabled = s.enabled := by
    intro n s
    unfold parseDrawGeometry pushCmd
    repeat' split
    all_goals simp
  have hdq : ∀ n s, ((parseDrawQuad collab n s).2).enabled = s.enabled := by
    intro n s
    unfold parseDrawQuad pushCmd
    repeat' split
    all_goals simp
  have hsu : ∀ n s, ((parseSetUniform collab n s).2).enabled = s.enabled := by
    intro n s
    unfold parseSetUniform pushCmd
    repeat' split
    all_goals simp
  have hex : ∀ n s, ((parseExternalNode reg n s).2).enabled = s.enabled := by
    intro n s
    unfold parseExternalNode
    by_cases hlen : reg.length > 0
    · simp only [hlen, if_true]
      by_cases hres : (parseCommand reg n.name n.attrs { command := CommandKind.ExternalCommand, externalCommandID := -1, params := [] } true).2.2 = true
      · simp [hres]
      · simp [hres]
    · simp [hlen]
  unfold parseStageCmd
  split_ifs <;>
    first
      | exact hsw _ _
      | exact hbb _ _
      | exact hdg _ _
      | exact hdq _ _
      | exact hsu _ _
      | exact hex _ _
      | simp [parseClearTarget, parseDoForwardLightLoop, parseDoDeferredLightLoop, pushCmd]

/-- The whole command loop preserves a stage's enabled flag. -/
theorem parseStageCmds_enabled (rts : List RenderTarget) (reg : List PipelineCommandRegEntry)
    (collab : Collaborators) :
    ∀ (nodes : List CmdNode) (stage : PipelineStage),
      ((parseStageCmds rts reg collab nodes stage).2).enabled = stage.enabled := by
  intro nodes
  induction nodes with
  | nil => intro stage; rfl
  | cons n rest ih =>
    intro stage
    unfold parseStageCmds
    rcases hp : parseStageCmd rts reg collab n stage with ⟨msg, st2⟩
    have he : st2.enabled = stage.enabled := by
      have := parseStageCmd_enabled rts reg collab n stage
      rw [hp] at this
      exact this
    by_cases hmsg : msg = ""
    · subst hmsg
      simpa using (ih st2).trans he
    · simp [hmsg, he]

/-- The enabled flag of a parsed stage is exactly the decode of the
`enabled` attribute performed at the top of `parseStage`. -/
theorem parseStage_enabled (rts : List RenderTarget) (reg : List PipelineCommandRegEntry)
    (collab : Collaborators) (sn : StageNode) :
    ((parseStage rts reg collab sn).2).enabled =
      !(striEq (getAttrD sn.attrs "enabled" "true") "false" ||
        striEq (getAttrD sn.attrs "enabled" "1") "0") := by
  unfold parseStage
  rw [parseStageCmds_enabled]

/-- C7: a parsed stage is disabled exactly when the `enabled` attribute is
present and equals "false" or "0" case-insensitively (an absent attribute
or any other value gives enabled = true), and `getElemParamI` reports the
flag as 1 or 0 for an in-range stage index. -/
theorem stage_enabled_flag (rts : List RenderTarget) (reg : List PipelineCommandRegEntry)
    (collab : Collaborators) (sn : StageNode) (st : PipelineResource) (i : Nat)
    (hi : i < st.stages.length) (hi32 : i < 2147483648) :
    (((parseStage rts reg collab sn).2).enabled = false ↔
      ∃ v, getAttr sn.attrs "enabled" = some v ∧
        (striEq v "false" = true ∨ striEq v "0" = true)) ∧
    pipeGetElemParamI st StageElem (i : Int) StageActivationI =
      some (if (st.stages.getD i {}).enabled then 1 else 0) := by
  constructor
  · rw [parseStage_enabled]
    cases hv : getAttr sn.attrs "enabled" with
    | none =>
      simp only [getAttrD, hv, Option.getD_none]
      constructor
      · intro hcontra
        exfalso
        revert hcontra
        decide
      · rintro ⟨v, hveq, _⟩
        exact Option.noConfusion hveq
    | some v =>
      simp only [getAttrD, hv, Option.getD_some]
      cases hsf : striEq v "false" <;> cases hs0 : striEq v "0" <;> simp [hsf, hs0]
  · have hcast : uint32ofInt (i : Int) = i := by
      unfold uint32ofInt
      omega
    simp [pipeGetElemParamI, hcast, hi]

/-- Witness for C7: the attribute value "FALSE" disables a stage, and the
first stage of a loaded resource reports its flag. -/
theorem stage_enabled_flag_witness :
    (0 < stLoaded.stages.length ∧ (0 : Nat) < 2147483648) ∧
    ((((parseStage [] [] collabW { attrs := [("enabled", "FALSE")], children := [] }).2).enabled
        = false ↔
      ∃ v, getAttr [("enabled", "FALSE")] "enabled" = some v ∧
        (striEq v "false" = true ∨ striEq v "0" = true)) ∧
    pipeGetElemParamI stLoaded StageElem ((0 : Nat) : Int) StageActivationI =
      some (if (stLoaded.stages.getD 0 {}).enabled then 1 else 0)) :=
  ⟨⟨by decide, by decide⟩,
   stage_enabled_flag [] [] collabW { attrs := [("enabled", "FALSE")], children := [] }
     stLoaded 0 (by decide) (by decide)⟩

/-- C8: `executeCommand` is a no-op (dispatches to no registry entry)
whenever the command's externalCommandID is -1; a dispatch to index i can
only happen with a non-(-1) id equal to i; and a command offered to a
registry with no matching entry keeps id -1 and is never dispatched. -/
theorem external_command_dispatch (reg : List PipelineCommandRegEntry)
    (cmd : PipelineCommand) :
    (cmd.externalCommandID = -1 → executeCommandExt reg cmd = none) ∧
    (∀ i, executeCommandExt reg cmd = some i →
      cmd.externalCommandID ≠ -1 ∧ cmd.externalCommandID.toNat = i) ∧
    (∀ (name : String) (attrs : AttrList),
      (∀ e ∈ reg, e.comNameString ≠ name) →
      executeCommandExt reg
        (parseCommand reg name attrs { command := .ExternalCommand } true).2.1 = none) := by
  refine ⟨?_, ?_, ?_⟩
  · intro h
    simp [executeCommandExt, h]
  · intro i hsome
    unfold executeCommandExt at hsome
    by_cases h : cmd.externalCommandID != -1
    · rw [if_pos h] at hsome
      refine ⟨by simpa using h, ?_⟩
      exact (Option.some_inj.mp hsome)
    · rw [if_neg h] at hsome
      exact Option.noConfusion hsome
  · intro name attrs hr
    rw [parseCommand, parseCommandAux_no_match _ _ _ _ _ _ hr]
    simp [executeCommandExt]

/-- Witness for C8: the freshly built external command has id -1 and is
not dispatched. -/
theorem external_command_dispatch_witness :
    ({ command := .ExternalCommand } : PipelineCommand).externalCommandID = -1 ∧
    executeCommandExt regFoo { command := .ExternalCommand } = none :=
  ⟨rfl, (external_command_dispatch regFoo { command := .ExternalCommand }).1 rfl⟩

/-- C10: an element index outside [0, stage count) (negative or too
large, within the int32 range, stage counts being int32-representable)
makes all three stage introspection operations delegate to the generic
base-resource handler: the reads return nothing from the stage sequence
and the write leaves the stage sequence unchanged. -/
theorem out_of_range_delegates (st : PipelineResource) (elem param value elemIdx : Int)
    (hlo : -2147483648 ≤ elemIdx) (hhi : elemIdx < 2147483648)
    (hlen : st.stages.length ≤ 2147483648)
    (hout : elemIdx < 0 ∨ (st.stages.length : Int) ≤ elemIdx) :
    pipeGetElemParamI st elem elemIdx param = none ∧
    (pipeSetElemParamI st elem elemIdx param value).1.stages = st.stages ∧
    (pipeSetElemParamI st elem elemIdx param value).2 = false ∧
    pipeGetElemParamStr st elem elemIdx param = none := by
  have hcast : ¬ (uint32ofInt elemIdx < st.stages.length) := by
    unfold uint32ofInt
    omega
  refine ⟨?_, ?_, ?_, ?_⟩ <;>
  · by_cases he : elem == StageElem <;>
      simp [pipeGetElemParamI, pipeSetElemParamI, pipeGetElemParamStr, he, hcast]

/-- Witness for C10 at index -1 on a one-stage resource. -/
theorem out_of_range_delegates_witness :
    (-2147483648 ≤ (-1 : Int) ∧ ((-1 : Int) < 2147483648) ∧
      stLoaded.stages.length ≤ 2147483648 ∧
      ((-1 : Int) < 0 ∨ (stLoaded.stages.length : Int) ≤ -1)) ∧
    pipeGetElemParamI stLoaded StageElem (-1) StageActivationI = none ∧
    (pipeSetElemParamI stLoaded StageElem (-1) StageActivationI 0).1.stages =
      stLoaded.stages ∧
    (pipeSetElemParamI stLoaded StageElem (-1) StageActivationI 0).2 = false ∧
    pipeGetElemParamStr stLoaded StageElem (-1) StageActivationI = none :=
  ⟨⟨by decide, by decide, by decide, Or.inl (by decide)⟩,
   out_of_range_delegates stLoaded StageElem StageActivationI 0 (-1)
     (by decide) (by decide) (by decide) (Or.inl (by decide))⟩

end Horde3D
